import Mathlib

/-!
Verification of the resource-assignment hooks of the test-suite repository
(`eessi/testsuite/hooks.py`).

The Python functions are shallowly embedded as Lean functions.  Python
"optional integer" test attributes become `Option Int`; Python truthiness
(`if test.x:` is false for both `None` and `0`) becomes `truthy`.  Python
`int(a / b)` truncates the exact quotient towards zero, so it is `Int.tdiv`
(with a `ZeroDivisionError` when the divisor is `0` and a `TypeError` when an
operand is `None`); `math.ceil(a / b)` is the exact ceiling.  ReFrame's
`test.skip_if(cond, msg)` marks the test as skipped (non-fatal); we record
the two counts interpolated into its message.  External collaborators that
are declared by the repository outside the provided sources
(`get_max_avail_gpus_per_node`, `is_cuda_required_module`, the `DEVICES` /
`FEATURES` constant tables) are modelled from the specification as inputs of
the embedding, see the doc comments below.
-/

/-- Partition capacity, an immutable snapshot of
`test.current_partition.processor.num_cpus`,
`test.current_partition.processor.num_sockets` and (modelled from the spec:
the value returned by `eessi.testsuite.utils.get_max_avail_gpus_per_node`,
whose source is not among the provided files; the spec's Capacity Provider
"supplies, for a given partition, ... maximum usable accelerator devices per
node") the maximum available GPUs per node. -/
structure Capacity where
  num_cpus : Option Int
  num_sockets : Option Int
  max_avail_gpus_per_node : Int
deriving DecidableEq, Repr

/-- The mutable attribute bag of the ReFrame test that
`assign_one_task_per_compute_unit` reads and writes: the resource-request
fields (`num_nodes` is set by the earlier `set_tag_scale` hook and is only
read here, so it is a plain integer; the remaining fields start out as
`None` unless pre-populated by the user or earlier hooks). -/
structure TestState where
  num_nodes : Int
  num_tasks_per_node : Option Int
  num_cpus_per_task : Option Int
  num_gpus_per_node : Option Int
  num_tasks : Option Int
  default_num_cpus_per_node : Option Int
  default_num_gpus_per_node : Option Int
  node_part : Option Int
  max_avail_cpus_per_node : Option Int
deriving DecidableEq, Repr

/-- Compute-unit policy.  Modelled from the spec: the `DEVICES` constant
table is not among the provided sources; the spec's Compute Unit Policy is
the closed enumeration whole-CPU / CPU-socket / device, and
`assign_one_task_per_compute_unit` compares `compute_unit` against
`DEVICES['GPU']`, `DEVICES['CPU']`, `DEVICES['CPU_SOCKET']` and rejects
anything else, so any further string is kept in `other`. -/
inductive ComputeUnit where
  | CPU
  | CPU_SOCKET
  | GPU
  | other (s : String)
deriving DecidableEq, Repr

/-- Python runtime errors that the arithmetic in the hooks can raise:
`TypeError` from arithmetic on `None`, `ZeroDivisionError` from dividing by
zero. -/
inductive PyError where
  | typeErr
  | zeroDiv
deriving DecidableEq, Repr

/-- Result of running `assign_one_task_per_compute_unit`:
either the test returns normally with the updated attributes (`resolved`),
or ReFrame's `skip_if` fired (`skipped requested available`, recording the
two counts cited in its message), or a Python exception escaped:
`attributeError` is the `AttributeError(PROCESSOR_INFO_MISSING)` raised when
the processor core count is unknown, `invalidConfig` is the `ValueError`
raised by the `node_part` / defaults check, `unknownComputeUnit` is the
`ValueError` for an unsupported compute unit, and `zeroDivisionError` /
`typeError` are uncaught arithmetic exceptions. -/
inductive Outcome where
  | resolved (t : TestState)
  | skipped (requested available : Int)
  | attributeError
  | invalidConfig
  | unknownComputeUnit
  | zeroDivisionError
  | typeError
deriving DecidableEq, Repr

/-- Python truthiness of an optional integer: `None` and `0` are falsy. -/
def truthy : Option Int → Bool
  | none => false
  | some v => v != 0

/-- Convert an escaped Python exception into the run's outcome. -/
def PyError.toOutcome : PyError → Outcome
  | .typeErr => .typeError
  | .zeroDiv => .zeroDivisionError

/-- Python `int(a / b)` on optional integers: `TypeError` when an operand is
`None`, `ZeroDivisionError` when `b = 0`, otherwise the exact quotient
truncated towards zero (`Int.tdiv`). -/
def pyIntDiv : Option Int → Option Int → Except PyError Int
  | some a, some b => if b = 0 then .error .zeroDiv else .ok (Int.tdiv a b)
  | _, _ => .error .typeErr

/-- Python `math.ceil(a / b)` on optional integers: `TypeError` when an
operand is `None`, `ZeroDivisionError` when `b = 0`, otherwise the exact
ceiling of the quotient, `⌈a/b⌉ = -⌊-a/b⌋`. -/
def pyCeilDiv : Option Int → Option Int → Except PyError Int
  | some a, some b => if b = 0 then .error .zeroDiv else .ok (-(Int.fdiv (-a) b))
  | _, _ => .error .typeErr

/-- Python `min(a, b)` on optional integers: `TypeError` when an operand is
`None`. -/
def pyMin : Option Int → Option Int → Except PyError Int
  | some a, some b => .ok (min a b)
  | _, _ => .error .typeErr

/-- The final statement shared by all three policy branches
(`hooks.py` lines 104, 138 and 206):
`test.num_tasks = test.num_nodes * test.num_tasks_per_node`.
When `num_tasks_per_node` is still `None` this is `int * None`, a
`TypeError`. -/
def finishNumTasks (t : TestState) : Outcome :=
  match t.num_tasks_per_node with
  | none => .typeError
  | some n => .resolved { t with num_tasks := some (t.num_nodes * n) }

/-- `hooks.py` `_assign_one_task_per_cpu` (lines 106-142): one task per
core unless `num_tasks_per_node` / `num_cpus_per_task` are already set. -/
def assign_one_task_per_cpu (t : TestState) : Outcome :=
  if !truthy t.num_tasks_per_node && !truthy t.num_cpus_per_task then
    finishNumTasks { t with num_tasks_per_node := t.default_num_cpus_per_node,
                            num_cpus_per_task := some 1 }
  else if !truthy t.num_tasks_per_node then
    match pyIntDiv t.default_num_cpus_per_node t.num_cpus_per_task with
    | .error e => e.toOutcome
    | .ok v => finishNumTasks { t with num_tasks_per_node := some v }
  else if !truthy t.num_cpus_per_task then
    match pyIntDiv t.default_num_cpus_per_node t.num_tasks_per_node with
    | .error e => e.toOutcome
    | .ok v => finishNumTasks { t with num_cpus_per_task := some v }
  else
    finishNumTasks t

/-- `hooks.py` `_assign_one_task_per_cpu_socket` (lines 71-104): one task
per CPU socket unless `num_tasks_per_node` / `num_cpus_per_task` are already
set.  When neither is set and the socket count is falsy (unknown or zero)
no assignment at all is made. -/
def assign_one_task_per_cpu_socket (cap : Capacity) (t : TestState) : Outcome :=
  if !truthy t.num_tasks_per_node && !truthy t.num_cpus_per_task then
    match cap.num_sockets with
    | some s =>
      if s = 0 then
        finishNumTasks t
      else
        match pyIntDiv t.default_num_cpus_per_node (some s) with
        | .error e => e.toOutcome
        | .ok v => finishNumTasks { t with num_tasks_per_node := some s,
                                           num_cpus_per_task := some v }
    | none => finishNumTasks t
  else if !truthy t.num_tasks_per_node then
    match pyIntDiv t.default_num_cpus_per_node t.num_cpus_per_task with
    | .error e => e.toOutcome
    | .ok v => finishNumTasks { t with num_tasks_per_node := some v }
  else if !truthy t.num_cpus_per_task then
    match pyIntDiv t.default_num_cpus_per_node t.num_tasks_per_node with
    | .error e => e.toOutcome
    | .ok v => finishNumTasks { t with num_cpus_per_task := some v }
  else
    finishNumTasks t

/-- `hooks.py` `_assign_one_task_per_gpu` lines 198-206: if
`num_cpus_per_task` is falsy, set it to
`min(int(default_num_cpus_per_node / num_tasks_per_node),
int(max_avail_cpus_per_node / max_avail_gpus_per_node))` (the two divisions
are evaluated left to right, so the first raised exception escapes), then
compute `num_tasks`. -/
def gpu_finish (maxGpus : Int) (t : TestState) : Outcome :=
  if !truthy t.num_cpus_per_task then
    match pyIntDiv t.default_num_cpus_per_node t.num_tasks_per_node with
    | .error e => e.toOutcome
    | .ok a =>
      match pyIntDiv t.max_avail_cpus_per_node (some maxGpus) with
      | .error e => e.toOutcome
      | .ok b => finishNumTasks { t with num_cpus_per_task := some (min a b) }
  else
    finishNumTasks t

/-- `hooks.py` `_assign_one_task_per_gpu` lines 182-196: the tie-break
between `num_tasks_per_node` and `num_gpus_per_node`.  Note lines 184-185
set `num_gpus_per_node` to the default and then `num_tasks_per_node` to
the freshly set `num_gpus_per_node`, i.e. both become the default. -/
def gpu_tie_break (maxGpus : Int) (t : TestState) : Outcome :=
  if !truthy t.num_tasks_per_node && !truthy t.num_gpus_per_node then
    gpu_finish maxGpus { t with num_gpus_per_node := t.default_num_gpus_per_node,
                                num_tasks_per_node := t.default_num_gpus_per_node }
  else if !truthy t.num_tasks_per_node then
    gpu_finish maxGpus { t with num_tasks_per_node := t.num_gpus_per_node }
  else if !truthy t.num_gpus_per_node then
    match pyMin t.num_tasks_per_node t.default_num_gpus_per_node with
    | .error e => e.toOutcome
    | .ok v => gpu_finish maxGpus { t with num_gpus_per_node := some v }
  else
    gpu_finish maxGpus t

/-- `hooks.py` line 180: `default_num_gpus_per_node =
math.ceil(max_avail_gpus_per_node / node_part)`, then continue with the
tie-break. -/
def gpu_derive_default (cap : Capacity) (t : TestState) : Outcome :=
  match pyCeilDiv (some cap.max_avail_gpus_per_node) t.node_part with
  | .error e => e.toOutcome
  | .ok v =>
    gpu_tie_break cap.max_avail_gpus_per_node
      { t with default_num_gpus_per_node := some v }

/-- `hooks.py` `_assign_one_task_per_gpu` (lines 145-211): establish
`default_num_gpus_per_node` (skipping when a truthy pre-set default exceeds
the maximum available GPUs per node, citing both counts), then tie-break. -/
def assign_one_task_per_gpu (cap : Capacity) (t : TestState) : Outcome :=
  match t.default_num_gpus_per_node with
  | some g =>
    if g = 0 then
      gpu_derive_default cap t
    else if g > cap.max_avail_gpus_per_node then
      .skipped g cap.max_avail_gpus_per_node
    else
      gpu_tie_break cap.max_avail_gpus_per_node t
  | none => gpu_derive_default cap t

/-- `hooks.py` lines 62-69: dispatch on the compute unit (`DEVICES['GPU']`,
`DEVICES['CPU']`, `DEVICES['CPU_SOCKET']`, otherwise a `ValueError`). -/
def dispatch (cap : Capacity) : ComputeUnit → TestState → Outcome
  | .GPU, t => assign_one_task_per_gpu cap t
  | .CPU, t => assign_one_task_per_cpu t
  | .CPU_SOCKET, t => assign_one_task_per_cpu_socket cap t
  | .other _, _ => .unknownComputeUnit

/-- `hooks.py` line 58: `default_num_cpus_per_node =
int(max_avail_cpus_per_node / node_part)`, then dispatch. -/
def derive_default_cpus (cap : Capacity) (cu : ComputeUnit) (maxCpus : Int)
    (t : TestState) : Outcome :=
  match pyIntDiv (some maxCpus) t.node_part with
  | .error e => e.toOutcome
  | .ok v => dispatch cap cu { t with default_num_cpus_per_node := some v }

/-- `hooks.py` lines 36-58, after `max_avail_cpus_per_node` has been read:
check that `node_part` is an integer or both per-node defaults are integers
(otherwise a `ValueError`), establish `default_num_cpus_per_node`
(skipping, with the requested and available counts, when a truthy pre-set
default exceeds the maximum available), and dispatch on the compute
unit. -/
def assign_checked (cap : Capacity) (cu : ComputeUnit) (maxCpus : Int)
    (t : TestState) : Outcome :=
  if !(t.node_part.isSome
        || (t.default_num_cpus_per_node.isSome
             && t.default_num_gpus_per_node.isSome)) then
    .invalidConfig
  else
    match t.default_num_cpus_per_node with
    | some v =>
      if v = 0 then
        derive_default_cpus cap cu maxCpus t
      else if v > maxCpus then
        .skipped v maxCpus
      else
        dispatch cap cu t
    | none => derive_default_cpus cap cu maxCpus t

/-- `hooks.py` `assign_one_task_per_compute_unit` (lines 21-69): copy the
partition core count into `max_avail_cpus_per_node` (an `AttributeError`
when it is `None`), then run the checks and dispatch of
`assign_checked`. -/
def assign_one_task_per_compute_unit (cap : Capacity) (cu : ComputeUnit)
    (t0 : TestState) : Outcome :=
  match cap.num_cpus with
  | none => .attributeError
  | some maxCpus =>
    assign_checked cap cu maxCpus
      { t0 with max_avail_cpus_per_node := some maxCpus }

/-- Feature tag required of GPU partitions.  Modelled from the spec: the
`FEATURES` constant table is not among the provided sources; the spec only
says the filter restricts "to partitions advertising a GPU capability
tag". -/
def FEATURES_GPU : String := "gpu"

/-- Feature tag required of CPU partitions.  Modelled from the spec: the
`FEATURES` constant table is not among the provided sources. -/
def FEATURES_CPU : String := "cpu"

/-- `hooks.py` `filter_valid_systems_by_device_type` (lines 214-239).
`is_cuda_module` stands for `is_cuda_required_module(test.module_name)`
(modelled from the spec: the source of `eessi.testsuite.utils` is not among
the provided files; the spec's Module Descriptor supplies the boolean
`requires_device_acceleration`).  When `valid_systems` is already non-empty
the function is a no-op; otherwise a CUDA module with a GPU requirement
restricts to the GPU feature, a CPU requirement restricts to the CPU
feature, and a GPU requirement without a CUDA module leaves the empty
filter string, so `valid_systems` stays empty (the `if valid_systems:`
guard on line 236 fails). -/
def filter_valid_systems_by_device_type (is_cuda_module : Bool)
    (required_device_type : ComputeUnit) (valid_systems : List String) :
    List String :=
  if valid_systems.isEmpty then
    match is_cuda_module, required_device_type with
    | true, .GPU => ["+" ++ FEATURES_GPU]
    | _, .CPU => ["+" ++ FEATURES_CPU]
    | _, _ => valid_systems
  else
    valid_systems

/-- The single-quote character, used by `shlex`. -/
def sqChar : Char := Char.ofNat 39

/-- The double-quote character, used by `shlex`. -/
def dqChar : Char := Char.ofNat 34

/-- The backslash character, the `shlex` escape character. -/
def bsChar : Char := Char.ofNat 92

/-- The `shlex` whitespace characters (space, tab, carriage return,
line feed). -/
def isShlexWhitespace (c : Char) : Bool :=
  c = ' ' || c = Char.ofNat 9 || c = Char.ofNat 13 || c = Char.ofNat 10

/-- Scanner state of `shlex` in POSIX whitespace-split mode: between
tokens, inside a plain word, inside single or double quotes, or right after
an escape character (outside or inside double quotes). -/
inductive ShlexState where
  | blank
  | word
  | single
  | double
  | escWord
  | escDouble
deriving DecidableEq, Repr

/-- The token scanner of Python's `shlex.split` (POSIX mode,
`whitespace_split=True`), processing the remaining characters with the
current scanner state, the characters of the token being built, the flag
recording whether the current token saw a quote (so that an empty quoted
token is still emitted), and the tokens emitted so far.  `none` models the
`ValueError` raised on an unclosed quotation or a trailing escape
character. -/
def shlexRun : List Char → ShlexState → List Char → Bool → List String →
    Option (List String)
  | [], .blank, _, _, acc => some acc
  | [], .word, cur, q, acc =>
    if cur.isEmpty && !q then some acc else some (acc ++ [String.mk cur])
  | [], .single, _, _, _ => none
  | [], .double, _, _, _ => none
  | [], .escWord, _, _, _ => none
  | [], .escDouble, _, _, _ => none
  | c :: cs, .blank, cur, q, acc =>
    if isShlexWhitespace c then shlexRun cs .blank [] false acc
    else if c = sqChar then shlexRun cs .single cur true acc
    else if c = dqChar then shlexRun cs .double cur true acc
    else if c = bsChar then shlexRun cs .escWord cur q acc
    else shlexRun cs .word (cur ++ [c]) q acc
  | c :: cs, .word, cur, q, acc =>
    if isShlexWhitespace c then
      shlexRun cs .blank [] false
        (if cur.isEmpty && !q then acc else acc ++ [String.mk cur])
    else if c = sqChar then shlexRun cs .single cur true acc
    else if c = dqChar then shlexRun cs .double cur true acc
    else if c = bsChar then shlexRun cs .escWord cur q acc
    else shlexRun cs .word (cur ++ [c]) q acc
  | c :: cs, .single, cur, q, acc =>
    if c = sqChar then shlexRun cs .word cur q acc
    else shlexRun cs .single (cur ++ [c]) q acc
  | c :: cs, .double, cur, q, acc =>
    if c = dqChar then shlexRun cs .word cur q acc
    else if c = bsChar then shlexRun cs .escDouble cur q acc
    else shlexRun cs .double (cur ++ [c]) q acc
  | c :: cs, .escWord, cur, q, acc => shlexRun cs .word (cur ++ [c]) q acc
  | c :: cs, .escDouble, cur, q, acc =>
    if c = dqChar || c = bsChar then shlexRun cs .double (cur ++ [c]) q acc
    else shlexRun cs .double (cur ++ [bsChar, c]) q acc

/-- Python's `shlex.split` (POSIX mode, as called by
`check_custom_executable_opts`): `none` models the `ValueError` on
malformed input. -/
def shlexSplit (s : String) : Option (List String) :=
  shlexRun s.data .blank [] false []

/-- Python's `' '.join`. -/
def pyJoin : List String → String
  | [] => ""
  | [x] => x
  | x :: xs => x ++ " " ++ pyJoin xs

/-- `hooks.py` `check_custom_executable_opts` (lines 266-275): re-tokenize
`executable_opts` with `shlex.split(' '.join(...))` and flag
`has_custom_executable_opts` when more than `num_default` tokens remain.
Returns the new `executable_opts` and the flag; `none` models the
`ValueError` that `shlex.split` raises on malformed input. -/
def check_custom_executable_opts (executable_opts : List String)
    (num_default : Nat) : Option (List String × Bool) :=
  (shlexSplit (pyJoin executable_opts)).map
    fun ts => (ts, decide (ts.length > num_default))
/-- A Python exception outcome is never a normal return. -/
lemma toOutcome_ne_resolved (e : PyError) (t' : TestState) :
    PyError.toOutcome e ≠ .resolved t' := by
  cases e <;> simp [PyError.toOutcome]

/-- A Python exception outcome is never the configuration `ValueError`. -/
lemma toOutcome_ne_invalidConfig (e : PyError) :
    PyError.toOutcome e ≠ .invalidConfig := by
  cases e <;> simp [PyError.toOutcome]

/-- The invariant checked by claim C2: the final `num_tasks` equals
`num_nodes * num_tasks_per_node`. -/
def numTasksInv (t' : TestState) : Prop :=
  ∃ n, t'.num_tasks_per_node = some n ∧
    t'.num_tasks = some (t'.num_nodes * n)

lemma finishNumTasks_inv {t t' : TestState}
    (h : finishNumTasks t = .resolved t') : numTasksInv t' := by
  unfold finishNumTasks at h
  split at h
  · exact absurd h (by simp)
  · rename_i n hn
    injection h with h
    subst h
    exact ⟨n, by simpa using hn, rfl⟩

lemma assign_one_task_per_cpu_inv {t t' : TestState}
    (h : assign_one_task_per_cpu t = .resolved t') : numTasksInv t' := by
  unfold assign_one_task_per_cpu at h
  repeat' split at h
  all_goals first
    | exact finishNumTasks_inv h
    | exact absurd h (toOutcome_ne_resolved _ _)

lemma assign_one_task_per_cpu_socket_inv {cap : Capacity} {t t' : TestState}
    (h : assign_one_task_per_cpu_socket cap t = .resolved t') :
    numTasksInv t' := by
  unfold assign_one_task_per_cpu_socket at h
  repeat' split at h
  all_goals first
    | exact finishNumTasks_inv h
    | exact absurd h (toOutcome_ne_resolved _ _)

lemma gpu_finish_inv {g : Int} {t t' : TestState}
    (h : gpu_finish g t = .resolved t') : numTasksInv t' := by
  unfold gpu_finish at h
  repeat' split at h
  all_goals first
    | exact finishNumTasks_inv h
    | exact absurd h (toOutcome_ne_resolved _ _)

lemma gpu_tie_break_inv {g : Int} {t t' : TestState}
    (h : gpu_tie_break g t = .resolved t') : numTasksInv t' := by
  unfold gpu_tie_break at h
  repeat' split at h
  all_goals first
    | exact gpu_finish_inv h
    | exact absurd h (toOutcome_ne_resolved _ _)

lemma gpu_derive_default_inv {cap : Capacity} {t t' : TestState}
    (h : gpu_derive_default cap t = .resolved t') : numTasksInv t' := by
  unfold gpu_derive_default at h
  repeat' split at h
  all_goals first
    | exact gpu_tie_break_inv h
    | exact absurd h (toOutcome_ne_resolved _ _)

lemma assign_one_task_per_gpu_inv {cap : Capacity} {t t' : TestState}
    (h : assign_one_task_per_gpu cap t = .resolved t') : numTasksInv t' := by
  unfold assign_one_task_per_gpu at h
  repeat' split at h
  all_goals first
    | exact gpu_tie_break_inv h
    | exact gpu_derive_default_inv h
    | exact absurd h (by simp)

lemma dispatch_inv {cap : Capacity} {cu : ComputeUnit} {t t' : TestState}
    (h : dispatch cap cu t = .resolved t') : numTasksInv t' := by
  cases cu with
  | CPU => exact assign_one_task_per_cpu_inv h
  | CPU_SOCKET => exact assign_one_task_per_cpu_socket_inv h
  | GPU => exact assign_one_task_per_gpu_inv h
  | other s => exact absurd h (by simp [dispatch])

lemma derive_default_cpus_inv {cap : Capacity} {cu : ComputeUnit}
    {m : Int} {t t' : TestState}
    (h : derive_default_cpus cap cu m t = .resolved t') : numTasksInv t' := by
  unfold derive_default_cpus at h
  repeat' split at h
  all_goals first
    | exact dispatch_inv h
    | exact absurd h (toOutcome_ne_resolved _ _)

/-- Claim C2: for every request that resolution completes successfully,
under any policy, the resolved request satisfies
`num_tasks = num_nodes * num_tasks_per_node` exactly. -/
lemma assign_checked_inv {cap : Capacity} {cu : ComputeUnit}
    {m : Int} {t t' : TestState}
    (h : assign_checked cap cu m t = .resolved t') : numTasksInv t' := by
  unfold assign_checked at h
  repeat' split at h
  all_goals first
    | exact dispatch_inv h
    | exact derive_default_cpus_inv h
    | exact absurd h (by simp)

theorem c2_num_tasks_invariant (cap : Capacity) (cu : ComputeUnit)
    (t0 t' : TestState)
    (h : assign_one_task_per_compute_unit cap cu t0 = .resolved t') :
    ∃ n, t'.num_tasks_per_node = some n ∧
      t'.num_tasks = some (t'.num_nodes * n) := by
  unfold assign_one_task_per_compute_unit at h
  repeat' split at h
  all_goals first
    | exact assign_checked_inv h
    | exact absurd h (by simp)
/-- A fully-unset resource request on one node with node-part divisor 1,
the base of the concrete instances below. -/
def baseRequest : TestState :=
  { num_nodes := 1, num_tasks_per_node := none, num_cpus_per_task := none,
    num_gpus_per_node := none, num_tasks := none,
    default_num_cpus_per_node := none, default_num_gpus_per_node := none,
    node_part := some 1, max_avail_cpus_per_node := none }

/-- A 16-core, 2-socket partition without GPUs. -/
def cap16 : Capacity :=
  { num_cpus := some 16, num_sockets := some 2, max_avail_gpus_per_node := 0 }

/-- A 16-core, 2-socket partition with 4 GPUs per node. -/
def cap16g4 : Capacity :=
  { num_cpus := some 16, num_sockets := some 2, max_avail_gpus_per_node := 4 }

/-- The state `assign_one_task_per_compute_unit cap16 .CPU baseRequest`
resolves to: one task on each of the 16 cores. -/
def resolvedWholeCpu16 : TestState :=
  { num_nodes := 1, num_tasks_per_node := some 16,
    num_cpus_per_task := some 1, num_gpus_per_node := none,
    num_tasks := some 16, default_num_cpus_per_node := some 16,
    default_num_gpus_per_node := none, node_part := some 1,
    max_avail_cpus_per_node := some 16 }

/-- Claim C1: for every partition capacity with a known core count and
every node-partition divisor `d ≥ 1`, resolving with the WHOLE_CPU policy
with no user-set `num_tasks_per_node` or `num_cpus_per_task` (and the
per-node CPU default not pre-set, so that it is derived from the divisor)
yields `num_cpus_per_task = 1` and
`num_tasks_per_node = ⌊num_cores / d⌋`. -/
theorem c1_whole_cpu_no_overrides (cap : Capacity) (t0 : TestState)
    (C d : Int)
    (hcpu : cap.num_cpus = some C) (hC : 0 ≤ C)
    (hnp : t0.node_part = some d) (hd : 1 ≤ d)
    (hdef : t0.default_num_cpus_per_node = none)
    (htpn : t0.num_tasks_per_node = none)
    (hcpt : t0.num_cpus_per_task = none) :
    ∃ t', assign_one_task_per_compute_unit cap .CPU t0 = .resolved t' ∧
      t'.num_cpus_per_task = some 1 ∧
      t'.num_tasks_per_node = some (Int.fdiv C d) := by
  have hd0 : ¬ d = 0 := by omega
  have hfd : Int.fdiv C d = Int.tdiv C d := Int.fdiv_eq_tdiv hC (by omega)
  refine ⟨{ t0 with
            max_avail_cpus_per_node := some C,
            default_num_cpus_per_node := some (Int.tdiv C d),
            num_tasks_per_node := some (Int.tdiv C d),
            num_cpus_per_task := some 1,
            num_tasks := some (t0.num_nodes * Int.tdiv C d) },
    ?_, by simp, by simp [hfd]⟩
  simp only [assign_one_task_per_compute_unit, assign_checked,
    derive_default_cpus, dispatch, assign_one_task_per_cpu, finishNumTasks,
    pyIntDiv, truthy, hcpu, hnp, hdef, htpn, hcpt]
  simp [hd0]

/-- Concrete instance of claim C1: 16 cores, divisor 2, no overrides. -/
theorem c1_witness :
    ∃ t', assign_one_task_per_compute_unit cap16 .CPU
        { baseRequest with node_part := some 2 } = .resolved t' ∧
      t'.num_cpus_per_task = some 1 ∧
      t'.num_tasks_per_node = some (Int.fdiv 16 2) :=
  c1_whole_cpu_no_overrides cap16 { baseRequest with node_part := some 2 }
    16 2 (by decide) (by decide) (by decide) (by decide) (by decide)
    (by decide) (by decide)

/-- Concrete instance of claim C2: the fully-default WHOLE_CPU resolution
on 16 cores satisfies the `num_tasks` invariant. -/
theorem c2_witness :
    ∃ n, resolvedWholeCpu16.num_tasks_per_node = some n ∧
      resolvedWholeCpu16.num_tasks =
        some (resolvedWholeCpu16.num_nodes * n) :=
  c2_num_tasks_invariant cap16 .CPU baseRequest resolvedWholeCpu16
    (by decide)

/-- Claim C8: the device-eligibility filter, called with a GPU device
requirement, a module that does not require device acceleration
(`is_cuda_required_module` returns `False`) and unconstrained candidates
(`valid_systems` empty), produces the empty candidate set; the function has
no raising path, so no error is raised. -/
theorem c8_gpu_non_accel_empty :
    filter_valid_systems_by_device_type false .GPU [] = [] := rfl

/-- Claim C10: under the CPU_SOCKET policy, when the socket count is
unknown and neither `num_tasks_per_node` nor `num_cpus_per_task` is
user-set, `_assign_one_task_per_cpu_socket` makes no assignment and the
final `num_tasks = num_nodes * num_tasks_per_node` multiplies an integer
with `None`: the run ends in the un-named `TypeError` (`Outcome.typeError`),
neither a resolved request nor any of the named errors nor a skip. -/
theorem c10_socket_unknown_type_error (cap : Capacity) (t0 : TestState)
    (C d : Int)
    (hcpu : cap.num_cpus = some C) (hsock : cap.num_sockets = none)
    (hnp : t0.node_part = some d) (hd : ¬ d = 0)
    (hdef : t0.default_num_cpus_per_node = none)
    (htpn : t0.num_tasks_per_node = none)
    (hcpt : t0.num_cpus_per_task = none) :
    assign_one_task_per_compute_unit cap .CPU_SOCKET t0 = .typeError := by
  simp only [assign_one_task_per_compute_unit, assign_checked,
    derive_default_cpus, dispatch, assign_one_task_per_cpu_socket,
    finishNumTasks, pyIntDiv, truthy, hcpu, hsock, hnp, hdef, htpn, hcpt]
  simp [hd]

/-- Concrete instance of claim C10: 16 cores, unknown socket count. -/
theorem c10_witness :
    assign_one_task_per_compute_unit
      { num_cpus := some 16, num_sockets := none,
        max_avail_gpus_per_node := 0 } .CPU_SOCKET baseRequest =
      .typeError :=
  c10_socket_unknown_type_error _ baseRequest 16 1 (by decide) (by decide)
    (by decide) (by decide) (by decide) (by decide) (by decide)

/-- Claim C5: a pre-set per-node default demand that exceeds the discovered
capacity always routes to the non-fatal skip (`Outcome.skipped`), whose
reason cites the requested and the available count, and never to a fatal
error.  First conjunct: a pre-set `default_num_cpus_per_node` above the
core count skips under every policy (the check precedes the dispatch).
Second conjunct: under the DEVICE policy a pre-set
`default_num_gpus_per_node` above the maximum available GPUs per node skips
citing those two counts (stated with the CPU default underived so that the
CPU-side check passes). -/
theorem c5_capacity_skip :
    (∀ (cap : Capacity) (cu : ComputeUnit) (t0 : TestState) (C v : Int),
      cap.num_cpus = some C → 0 ≤ C →
      t0.default_num_cpus_per_node = some v → v > C →
      (t0.node_part.isSome ∨ t0.default_num_gpus_per_node.isSome) →
      assign_one_task_per_compute_unit cap cu t0 = .skipped v C) ∧
    (∀ (cap : Capacity) (t0 : TestState) (C d w : Int),
      cap.num_cpus = some C → t0.node_part = some d → ¬ d = 0 →
      t0.default_num_cpus_per_node = none →
      0 ≤ cap.max_avail_gpus_per_node →
      t0.default_num_gpus_per_node = some w →
      w > cap.max_avail_gpus_per_node →
      assign_one_task_per_compute_unit cap .GPU t0 =
        .skipped w cap.max_avail_gpus_per_node) := by
  constructor
  · intro cap cu t0 C v hcpu hC hdef hv hcfg
    have hv0 : ¬ v = 0 := by omega
    simp only [assign_one_task_per_compute_unit, assign_checked, hcpu, hdef]
    rcases hcfg with h | h <;>
      rw [Option.isSome_iff_exists] at h <;>
      obtain ⟨a, ha⟩ := h <;>
      simp [ha, hv0, hv]
  · intro cap t0 C d w hcpu hnp hd hdef hG hdefg hw
    have hw0 : ¬ w = 0 := by omega
    simp only [assign_one_task_per_compute_unit, assign_checked,
      derive_default_cpus, dispatch, assign_one_task_per_gpu, pyIntDiv,
      hcpu, hnp, hdef, hdefg]
    simp [hd, hw0, hw]

/-- Concrete instances of claim C5: requested 32 CPUs per node against 16
available, and requested 8 GPUs per node against 4 available. -/
theorem c5_witness :
    assign_one_task_per_compute_unit cap16 .CPU
      { baseRequest with default_num_cpus_per_node := some 32 } =
      .skipped 32 16 ∧
    assign_one_task_per_compute_unit cap16g4 .GPU
      { baseRequest with default_num_gpus_per_node := some 8 } =
      .skipped 8 4 :=
  ⟨c5_capacity_skip.1 cap16 .CPU _ 16 32 (by decide) (by decide) (by decide)
      (by decide) (Or.inl (by decide)),
   c5_capacity_skip.2 cap16g4 _ 16 1 8 (by decide) (by decide) (by decide)
      (by decide) (by decide) (by decide) (by decide)⟩
lemma finishNumTasks_ne_invalidConfig (t : TestState) :
    finishNumTasks t ≠ .invalidConfig := by
  unfold finishNumTasks
  split <;> simp

lemma assign_one_task_per_cpu_ne_invalidConfig (t : TestState) :
    assign_one_task_per_cpu t ≠ .invalidConfig := by
  unfold assign_one_task_per_cpu
  repeat' split
  all_goals first
    | exact finishNumTasks_ne_invalidConfig _
    | exact toOutcome_ne_invalidConfig _

lemma assign_one_task_per_cpu_socket_ne_invalidConfig (cap : Capacity)
    (t : TestState) :
    assign_one_task_per_cpu_socket cap t ≠ .invalidConfig := by
  unfold assign_one_task_per_cpu_socket
  repeat' split
  all_goals first
    | exact finishNumTasks_ne_invalidConfig _
    | exact toOutcome_ne_invalidConfig _

lemma gpu_finish_ne_invalidConfig (g : Int) (t : TestState) :
    gpu_finish g t ≠ .invalidConfig := by
  unfold gpu_finish
  repeat' split
  all_goals first
    | exact finishNumTasks_ne_invalidConfig _
    | exact toOutcome_ne_invalidConfig _

lemma gpu_tie_break_ne_invalidConfig (g : Int) (t : TestState) :
    gpu_tie_break g t ≠ .invalidConfig := by
  unfold gpu_tie_break
  repeat' split
  all_goals first
    | exact gpu_finish_ne_invalidConfig _ _
    | exact toOutcome_ne_invalidConfig _

lemma gpu_derive_default_ne_invalidConfig (cap : Capacity) (t : TestState) :
    gpu_derive_default cap t ≠ .invalidConfig := by
  unfold gpu_derive_default
  repeat' split
  all_goals first
    | exact gpu_tie_break_ne_invalidConfig _ _
    | exact toOutcome_ne_invalidConfig _

lemma assign_one_task_per_gpu_ne_invalidConfig (cap : Capacity)
    (t : TestState) :
    assign_one_task_per_gpu cap t ≠ .invalidConfig := by
  unfold assign_one_task_per_gpu
  repeat' split
  all_goals first
    | exact gpu_tie_break_ne_invalidConfig _ _
    | exact gpu_derive_default_ne_invalidConfig _ _
    | simp

lemma dispatch_ne_invalidConfig (cap : Capacity) (cu : ComputeUnit)
    (t : TestState) : dispatch cap cu t ≠ .invalidConfig := by
  cases cu with
  | CPU => exact assign_one_task_per_cpu_ne_invalidConfig _
  | CPU_SOCKET => exact assign_one_task_per_cpu_socket_ne_invalidConfig _ _
  | GPU => exact assign_one_task_per_gpu_ne_invalidConfig _ _
  | other s => simp [dispatch]

lemma derive_default_cpus_ne_invalidConfig (cap : Capacity)
    (cu : ComputeUnit) (m : Int) (t : TestState) :
    derive_default_cpus cap cu m t ≠ .invalidConfig := by
  unfold derive_default_cpus
  repeat' split
  all_goals first
    | exact dispatch_ne_invalidConfig _ _ _
    | exact toOutcome_ne_invalidConfig _

/-- Counterexample to claim C6: the non-positive node-partition divisor
`-1` with both per-node defaults unset does not trigger the
`InvalidRequestConfiguration` error — `type(test.node_part) == int` checks
only int-ness, never positivity — and resolution in fact completes,
returning negative resource counts. -/
theorem c6_counterexample :
    (TestState.node_part
        { baseRequest with node_part := some (-1) } = some (-1)) ∧
    (TestState.default_num_cpus_per_node
        { baseRequest with node_part := some (-1) } = none) ∧
    (TestState.default_num_gpus_per_node
        { baseRequest with node_part := some (-1) } = none) ∧
    assign_one_task_per_compute_unit cap16 .CPU
        { baseRequest with node_part := some (-1) } ≠ .invalidConfig ∧
    assign_one_task_per_compute_unit cap16 .CPU
        { baseRequest with node_part := some (-1) } =
      .resolved
        { num_nodes := 1, num_tasks_per_node := some (-16),
          num_cpus_per_task := some 1, num_gpus_per_node := none,
          num_tasks := some (-16), default_num_cpus_per_node := some (-16),
          default_num_gpus_per_node := none, node_part := some (-1),
          max_avail_cpus_per_node := some 16 } := by
  refine ⟨rfl, rfl, rfl, ?_, by decide⟩
  decide

lemma assign_checked_invalidConfig_iff (cap : Capacity) (cu : ComputeUnit)
    (m : Int) (t : TestState) :
    assign_checked cap cu m t = .invalidConfig ↔
      (t.node_part = none ∧
        (t.default_num_cpus_per_node = none ∨
          t.default_num_gpus_per_node = none)) := by
  constructor
  · intro h
    unfold assign_checked at h
    split at h
    · rename_i hc
      cases hnp : t.node_part <;> cases hdc : t.default_num_cpus_per_node <;>
        cases hdg : t.default_num_gpus_per_node <;>
        simp [hnp, hdc, hdg] at hc ⊢
    · exfalso
      revert h
      repeat' split
      all_goals first
        | exact derive_default_cpus_ne_invalidConfig _ _ _ _
        | exact dispatch_ne_invalidConfig _ _ _
        | simp
  · intro hcfg
    obtain ⟨h1, h2⟩ := hcfg
    unfold assign_checked
    rcases h2 with h2 | h2 <;> simp [h1, h2]

/-- Claim C6 as amended: with a known core count, resolution raises the
`InvalidRequestConfiguration` `ValueError` exactly when `node_part` is not
a set integer and not both per-node defaults are set integers; the sign of
a set divisor is never checked, so a non-positive set divisor does not
trigger this error. -/
theorem c6_invalid_config_iff (cap : Capacity) (cu : ComputeUnit)
    (t0 : TestState) (C : Int) (hcpu : cap.num_cpus = some C) :
    assign_one_task_per_compute_unit cap cu t0 = .invalidConfig ↔
      (t0.node_part = none ∧
        (t0.default_num_cpus_per_node = none ∨
          t0.default_num_gpus_per_node = none)) := by
  unfold assign_one_task_per_compute_unit
  rw [hcpu]
  exact assign_checked_invalidConfig_iff cap cu C
    { t0 with max_avail_cpus_per_node := some C }

/-- Concrete instance of claim C6 as amended: unset divisor and unset CPU
default on 16 cores raise `InvalidRequestConfiguration`. -/
theorem c6_witness :
    assign_one_task_per_compute_unit cap16 .CPU
        { baseRequest with node_part := none } = .invalidConfig ∧
    (TestState.node_part { baseRequest with node_part := none } = none ∧
      (TestState.default_num_cpus_per_node
          { baseRequest with node_part := none } = none ∨
        TestState.default_num_gpus_per_node
          { baseRequest with node_part := none } = none)) :=
  ⟨(c6_invalid_config_iff cap16 .CPU _ 16 (by decide)).mpr
      ⟨rfl, Or.inl rfl⟩,
   rfl, Or.inl rfl⟩
lemma finishNumTasks_fields {t t' : TestState}
    (h : finishNumTasks t = .resolved t') :
    t'.num_tasks_per_node = t.num_tasks_per_node ∧
    t'.num_cpus_per_task = t.num_cpus_per_task ∧
    t'.num_gpus_per_node = t.num_gpus_per_node ∧
    t'.num_nodes = t.num_nodes ∧
    t'.default_num_gpus_per_node = t.default_num_gpus_per_node := by
  unfold finishNumTasks at h
  split at h
  · exact absurd h (by simp)
  · injection h with h
    subst h
    exact ⟨rfl, rfl, rfl, rfl, rfl⟩

lemma assign_one_task_per_cpu_preserves {t t' : TestState}
    (h : assign_one_task_per_cpu t = .resolved t') :
    (truthy t.num_tasks_per_node = true →
      t'.num_tasks_per_node = t.num_tasks_per_node) ∧
    (truthy t.num_cpus_per_task = true →
      t'.num_cpus_per_task = t.num_cpus_per_task) ∧
    t'.num_gpus_per_node = t.num_gpus_per_node ∧
    t'.num_nodes = t.num_nodes := by
  unfold assign_one_task_per_cpu at h
  repeat' split at h
  all_goals first
    | exact absurd h (toOutcome_ne_resolved _ _)
    | (obtain ⟨e1, e2, e3, e4, e5⟩ := finishNumTasks_fields h; simp_all)

lemma assign_one_task_per_cpu_socket_preserves {cap : Capacity}
    {t t' : TestState}
    (h : assign_one_task_per_cpu_socket cap t = .resolved t') :
    (truthy t.num_tasks_per_node = true →
      t'.num_tasks_per_node = t.num_tasks_per_node) ∧
    (truthy t.num_cpus_per_task = true →
      t'.num_cpus_per_task = t.num_cpus_per_task) ∧
    t'.num_gpus_per_node = t.num_gpus_per_node ∧
    t'.num_nodes = t.num_nodes := by
  unfold assign_one_task_per_cpu_socket at h
  repeat' split at h
  all_goals first
    | exact absurd h (toOutcome_ne_resolved _ _)
    | (obtain ⟨e1, e2, e3, e4, e5⟩ := finishNumTasks_fields h; simp_all)

lemma gpu_finish_preserves {g : Int} {t t' : TestState}
    (h : gpu_finish g t = .resolved t') :
    (truthy t.num_cpus_per_task = true →
      t'.num_cpus_per_task = t.num_cpus_per_task) ∧
    t'.num_tasks_per_node = t.num_tasks_per_node ∧
    t'.num_gpus_per_node = t.num_gpus_per_node ∧
    t'.num_nodes = t.num_nodes ∧
    t'.default_num_gpus_per_node = t.default_num_gpus_per_node := by
  unfold gpu_finish at h
  repeat' split at h
  all_goals first
    | exact absurd h (toOutcome_ne_resolved _ _)
    | (obtain ⟨e1, e2, e3, e4, e5⟩ := finishNumTasks_fields h; simp_all)

lemma gpu_tie_break_preserves {g : Int} {t t' : TestState}
    (h : gpu_tie_break g t = .resolved t') :
    (truthy t.num_tasks_per_node = true →
      t'.num_tasks_per_node = t.num_tasks_per_node) ∧
    (truthy t.num_cpus_per_task = true →
      t'.num_cpus_per_task = t.num_cpus_per_task) ∧
    (truthy t.num_gpus_per_node = true →
      t'.num_gpus_per_node = t.num_gpus_per_node) ∧
    t'.num_nodes = t.num_nodes := by
  unfold gpu_tie_break at h
  repeat' split at h
  all_goals first
    | exact absurd h (toOutcome_ne_resolved _ _)
    | (obtain ⟨e1, e2, e3, e4, e5⟩ := gpu_finish_preserves h; simp_all)

lemma gpu_derive_default_preserves {cap : Capacity} {t t' : TestState}
    (h : gpu_derive_default cap t = .resolved t') :
    (truthy t.num_tasks_per_node = true →
      t'.num_tasks_per_node = t.num_tasks_per_node) ∧
    (truthy t.num_cpus_per_task = true →
      t'.num_cpus_per_task = t.num_cpus_per_task) ∧
    (truthy t.num_gpus_per_node = true →
      t'.num_gpus_per_node = t.num_gpus_per_node) ∧
    t'.num_nodes = t.num_nodes := by
  unfold gpu_derive_default at h
  repeat' split at h
  all_goals first
    | exact absurd h (toOutcome_ne_resolved _ _)
    | (obtain ⟨e1, e2, e3, e4⟩ := gpu_tie_break_preserves h; simp_all)

lemma assign_one_task_per_gpu_preserves {cap : Capacity} {t t' : TestState}
    (h : assign_one_task_per_gpu cap t = .resolved t') :
    (truthy t.num_tasks_per_node = true →
      t'.num_tasks_per_node = t.num_tasks_per_node) ∧
    (truthy t.num_cpus_per_task = true →
      t'.num_cpus_per_task = t.num_cpus_per_task) ∧
    (truthy t.num_gpus_per_node = true →
      t'.num_gpus_per_node = t.num_gpus_per_node) ∧
    t'.num_nodes = t.num_nodes := by
  unfold assign_one_task_per_gpu at h
  repeat' split at h
  all_goals first
    | exact absurd h (by simp)
    | exact gpu_tie_break_preserves h
    | exact gpu_derive_default_preserves h

lemma dispatch_preserves {cap : Capacity} {cu : ComputeUnit}
    {t t' : TestState} (h : dispatch cap cu t = .resolved t') :
    (truthy t.num_tasks_per_node = true →
      t'.num_tasks_per_node = t.num_tasks_per_node) ∧
    (truthy t.num_cpus_per_task = true →
      t'.num_cpus_per_task = t.num_cpus_per_task) ∧
    (truthy t.num_gpus_per_node = true →
      t'.num_gpus_per_node = t.num_gpus_per_node) ∧
    t'.num_nodes = t.num_nodes := by
  cases cu with
  | CPU =>
    obtain ⟨e1, e2, e3, e4⟩ := assign_one_task_per_cpu_preserves h
    exact ⟨e1, e2, fun _ => e3, e4⟩
  | CPU_SOCKET =>
    obtain ⟨e1, e2, e3, e4⟩ := assign_one_task_per_cpu_socket_preserves h
    exact ⟨e1, e2, fun _ => e3, e4⟩
  | GPU => exact assign_one_task_per_gpu_preserves h
  | other s => exact absurd h (by simp [dispatch])

lemma derive_default_cpus_preserves {cap : Capacity} {cu : ComputeUnit}
    {m : Int} {t t' : TestState}
    (h : derive_default_cpus cap cu m t = .resolved t') :
    (truthy t.num_tasks_per_node = true →
      t'.num_tasks_per_node = t.num_tasks_per_node) ∧
    (truthy t.num_cpus_per_task = true →
      t'.num_cpus_per_task = t.num_cpus_per_task) ∧
    (truthy t.num_gpus_per_node = true →
      t'.num_gpus_per_node = t.num_gpus_per_node) ∧
    t'.num_nodes = t.num_nodes := by
  unfold derive_default_cpus at h
  repeat' split at h
  all_goals first
    | exact absurd h (toOutcome_ne_resolved _ _)
    | (obtain ⟨e1, e2, e3, e4⟩ := dispatch_preserves h; simp_all)

lemma assign_checked_preserves {cap : Capacity} {cu : ComputeUnit}
    {m : Int} {t t' : TestState}
    (h : assign_checked cap cu m t = .resolved t') :
    (truthy t.num_tasks_per_node = true →
      t'.num_tasks_per_node = t.num_tasks_per_node) ∧
    (truthy t.num_cpus_per_task = true →
      t'.num_cpus_per_task = t.num_cpus_per_task) ∧
    (truthy t.num_gpus_per_node = true →
      t'.num_gpus_per_node = t.num_gpus_per_node) ∧
    t'.num_nodes = t.num_nodes := by
  unfold assign_checked at h
  repeat' split at h
  all_goals first
    | exact absurd h (by simp)
    | exact dispatch_preserves h
    | exact derive_default_cpus_preserves h

/-- Claim C7 as amended: when resolution completes, a `num_tasks_per_node`,
`num_cpus_per_task` or `num_gpus_per_node` that arrived pre-populated with
a truthy (non-zero) value is left unchanged, and `num_nodes` is never
written.  A pre-populated zero is falsy in the `if not test.x:` guards and
is treated as unset (see the counterexample), and `num_tasks` is always
recomputed, so the original claim's "including a value of 0" and its
quantification over every field do not hold. -/
theorem c7_preserves_nonzero_user_fields (cap : Capacity)
    (cu : ComputeUnit) (t0 t' : TestState)
    (h : assign_one_task_per_compute_unit cap cu t0 = .resolved t') :
    (∀ v : Int, ¬ v = 0 → t0.num_tasks_per_node = some v →
      t'.num_tasks_per_node = some v) ∧
    (∀ v : Int, ¬ v = 0 → t0.num_cpus_per_task = some v →
      t'.num_cpus_per_task = some v) ∧
    (∀ v : Int, ¬ v = 0 → t0.num_gpus_per_node = some v →
      t'.num_gpus_per_node = some v) ∧
    t'.num_nodes = t0.num_nodes := by
  unfold assign_one_task_per_compute_unit at h
  split at h
  · exact absurd h (by simp)
  · obtain ⟨e1, e2, e3, e4⟩ := assign_checked_preserves h
    refine ⟨?_, ?_, ?_, by simpa using e4⟩ <;>
      intro v hv hset <;> simp_all [truthy]
/-- The request of the claim C7 counterexample: the user pre-populates
`num_tasks_per_node = 0` and `num_cpus_per_task = 2`. -/
def zeroPresetRequest : TestState :=
  { baseRequest with num_tasks_per_node := some 0,
                     num_cpus_per_task := some 2 }

/-- Counterexample to claim C7 as stated: a pre-populated
`num_tasks_per_node = 0` is falsy for the `if not test.num_tasks_per_node:`
guard, so WHOLE_CPU resolution overwrites it with
`int(default_num_cpus_per_node / num_cpus_per_task) = 8`. -/
theorem c7_counterexample :
    zeroPresetRequest.num_tasks_per_node = some 0 ∧
    assign_one_task_per_compute_unit cap16 .CPU zeroPresetRequest =
      .resolved
        { num_nodes := 1, num_tasks_per_node := some 8,
          num_cpus_per_task := some 2, num_gpus_per_node := none,
          num_tasks := some 8, default_num_cpus_per_node := some 16,
          default_num_gpus_per_node := none, node_part := some 1,
          max_avail_cpus_per_node := some 16 } := by
  exact ⟨rfl, by decide⟩

/-- The request of the claim C7 concrete instance: truthy pre-sets
`num_tasks_per_node = 2` and `num_cpus_per_task = 3`. -/
def presetRequest : TestState :=
  { baseRequest with num_tasks_per_node := some 2,
                     num_cpus_per_task := some 3 }

/-- The state WHOLE_CPU resolution of `presetRequest` on `cap16`
resolves to. -/
def presetResolved : TestState :=
  { num_nodes := 1, num_tasks_per_node := some 2,
    num_cpus_per_task := some 3, num_gpus_per_node := none,
    num_tasks := some 2, default_num_cpus_per_node := some 16,
    default_num_gpus_per_node := none, node_part := some 1,
    max_avail_cpus_per_node := some 16 }

/-- Concrete instance of claim C7 as amended: the pre-set values 2 and 3
survive resolution. -/
theorem c7_witness :
    presetResolved.num_tasks_per_node = some 2 ∧
    presetResolved.num_cpus_per_task = some 3 :=
  ⟨(c7_preserves_nonzero_user_fields cap16 .CPU presetRequest
      presetResolved (by decide)).1 2 (by decide) rfl,
   (c7_preserves_nonzero_user_fields cap16 .CPU presetRequest
      presetResolved (by decide)).2.1 3 (by decide) rfl⟩

lemma gpu_tie_break_min {G n : Int} {t t' : TestState}
    (htpn : t.num_tasks_per_node = some n) (hn : ¬ n = 0)
    (hgpn : truthy t.num_gpus_per_node = false)
    (h : gpu_tie_break G t = .resolved t') :
    ∃ g, t'.default_num_gpus_per_node = some g ∧
      t'.num_gpus_per_node = some (min n g) := by
  have htr : truthy t.num_tasks_per_node = true := by
    simp [truthy, htpn, hn]
  unfold gpu_tie_break at h
  rw [htr, hgpn] at h
  simp only [Bool.not_true, Bool.not_false, Bool.false_and,
    Bool.true_and] at h
  rw [if_neg (by simp), if_neg (by simp), if_pos trivial] at h
  rw [htpn] at h
  cases hdg : t.default_num_gpus_per_node with
  | none =>
    rw [hdg] at h
    simp only [pyMin] at h
    exact absurd h (by simp [PyError.toOutcome])
  | some g =>
    rw [hdg] at h
    simp only [pyMin] at h
    obtain ⟨e1, e2, e3, e4, e5⟩ := gpu_finish_preserves h
    exact ⟨g, by simpa [hdg] using e5, by simpa using e3⟩
lemma assign_one_task_per_gpu_min {cap : Capacity} {n : Int}
    {t t' : TestState}
    (htpn : t.num_tasks_per_node = some n) (hn : ¬ n = 0)
    (hgpn : truthy t.num_gpus_per_node = false)
    (h : assign_one_task_per_gpu cap t = .resolved t') :
    ∃ g, t'.default_num_gpus_per_node = some g ∧
      t'.num_gpus_per_node = some (min n g) := by
  unfold assign_one_task_per_gpu gpu_derive_default at h
  repeat' split at h
  all_goals first
    | exact absurd h (by simp)
    | exact absurd h (toOutcome_ne_resolved _ _)
    | (refine gpu_tie_break_min ?_ hn ?_ h <;> first | exact htpn | exact hgpn)

lemma assign_checked_gpu_min {cap : Capacity} {m n : Int}
    {t t' : TestState}
    (htpn : t.num_tasks_per_node = some n) (hn : ¬ n = 0)
    (hgpn : truthy t.num_gpus_per_node = false)
    (h : assign_checked cap .GPU m t = .resolved t') :
    ∃ g, t'.default_num_gpus_per_node = some g ∧
      t'.num_gpus_per_node = some (min n g) := by
  unfold assign_checked derive_default_cpus at h
  repeat' split at h
  all_goals first
    | exact absurd h (by simp)
    | exact absurd h (toOutcome_ne_resolved _ _)
    | (refine assign_one_task_per_gpu_min ?_ hn ?_ h <;>
        first | exact htpn | exact hgpn)

/-- The DEVICE-policy request of the claim C3 counterexample: the user
pre-sets `num_tasks_per_node = 8` and leaves `num_gpus_per_node` unset. -/
def tpnPresetRequest : TestState :=
  { baseRequest with num_tasks_per_node := some 8 }

/-- Counterexample to claim C3 as stated: with `num_tasks_per_node = 8`
user-set, `num_gpus_per_node` unset and only 4 GPUs available (so the
derived `default_num_gpus_per_node` is 4), line 193 of `hooks.py` sets
`num_gpus_per_node = min(8, 4) = 4`, not `8 = num_tasks_per_node`. -/
theorem c3_counterexample :
    tpnPresetRequest.num_tasks_per_node = some 8 ∧
    tpnPresetRequest.num_gpus_per_node = none ∧
    assign_one_task_per_compute_unit cap16g4 .GPU tpnPresetRequest =
      .resolved
        { num_nodes := 1, num_tasks_per_node := some 8,
          num_cpus_per_task := some 2, num_gpus_per_node := some 4,
          num_tasks := some 8, default_num_cpus_per_node := some 16,
          default_num_gpus_per_node := some 4, node_part := some 1,
          max_avail_cpus_per_node := some 16 } :=
  ⟨rfl, rfl, by decide⟩

/-- Claim C3 as amended: under the DEVICE policy, when
`num_tasks_per_node` is user-set (truthy) and `num_gpus_per_node` is not,
a completing resolution sets `num_gpus_per_node` to the *minimum* of
`num_tasks_per_node` and the established `default_num_gpus_per_node`
(which equals `num_tasks_per_node` only when the latter does not exceed
the default). -/
theorem c3_device_min_amended (cap : Capacity) (t0 t' : TestState)
    (n : Int)
    (htpn : t0.num_tasks_per_node = some n) (hn : ¬ n = 0)
    (hgpn : truthy t0.num_gpus_per_node = false)
    (h : assign_one_task_per_compute_unit cap .GPU t0 = .resolved t') :
    ∃ g, t'.default_num_gpus_per_node = some g ∧
      t'.num_gpus_per_node = some (min n g) := by
  unfold assign_one_task_per_compute_unit at h
  split at h
  · exact absurd h (by simp)
  · refine assign_checked_gpu_min ?_ hn ?_ h <;>
      first | exact htpn | exact hgpn

/-- Concrete instance of claim C3 as amended: the counterexample input,
where `min 8 4 = 4` is assigned. -/
theorem c3_witness :
    ∃ g, TestState.default_num_gpus_per_node
        { num_nodes := 1, num_tasks_per_node := some 8,
          num_cpus_per_task := some 2, num_gpus_per_node := some 4,
          num_tasks := some 8, default_num_cpus_per_node := some 16,
          default_num_gpus_per_node := some 4, node_part := some 1,
          max_avail_cpus_per_node := some 16 } = some g ∧
      TestState.num_gpus_per_node
        { num_nodes := 1, num_tasks_per_node := some 8,
          num_cpus_per_task := some 2, num_gpus_per_node := some 4,
          num_tasks := some 8, default_num_cpus_per_node := some 16,
          default_num_gpus_per_node := some 4, node_part := some 1,
          max_avail_cpus_per_node := some 16 } = some (min 8 g) :=
  c3_device_min_amended cap16g4 tpnPresetRequest _ 8 rfl (by decide) rfl
    (by decide)

lemma gpu_finish_cpt_bound {G C : Int} {t t' : TestState}
    (hcpt : truthy t.num_cpus_per_task = false)
    (hmax : t.max_avail_cpus_per_node = some C)
    (h : gpu_finish G t = .resolved t') :
    ∃ a, t'.num_cpus_per_task = some (min a (Int.tdiv C G)) ∧ ¬ G = 0 := by
  unfold gpu_finish at h
  rw [hcpt] at h
  simp only [Bool.not_false] at h
  rw [if_pos trivial] at h
  split at h
  · exact absurd h (toOutcome_ne_resolved _ _)
  · rename_i a ha
    rw [hmax] at h
    simp only [pyIntDiv] at h
    split at h
    · exact absurd h (toOutcome_ne_resolved _ _)
    · rename_i v hv
      have hG : ¬ G = 0 := by
        intro hG0
        rw [if_pos hG0] at hv
        exact absurd hv (by simp)
      rw [if_neg hG] at hv
      injection hv with hv
      subst hv
      obtain ⟨e1, e2, e3, e4, e5⟩ := finishNumTasks_fields h
      exact ⟨a, by simpa using e2, hG⟩

lemma gpu_tie_break_cpt_bound {G C : Int} {t t' : TestState}
    (hcpt : truthy t.num_cpus_per_task = false)
    (hmax : t.max_avail_cpus_per_node = some C)
    (h : gpu_tie_break G t = .resolved t') :
    ∃ a, t'.num_cpus_per_task = some (min a (Int.tdiv C G)) ∧ ¬ G = 0 := by
  unfold gpu_tie_break at h
  repeat' split at h
  all_goals first
    | exact absurd h (toOutcome_ne_resolved _ _)
    | (refine gpu_finish_cpt_bound ?_ ?_ h <;>
        first | exact hcpt | exact hmax)

lemma assign_one_task_per_gpu_cpt_bound {cap : Capacity} {C : Int}
    {t t' : TestState}
    (hcpt : truthy t.num_cpus_per_task = false)
    (hmax : t.max_avail_cpus_per_node = some C)
    (h : assign_one_task_per_gpu cap t = .resolved t') :
    ∃ a, t'.num_cpus_per_task =
        some (min a (Int.tdiv C cap.max_avail_gpus_per_node)) ∧
      ¬ cap.max_avail_gpus_per_node = 0 := by
  unfold assign_one_task_per_gpu gpu_derive_default at h
  repeat' split at h
  all_goals first
    | exact absurd h (by simp)
    | exact absurd h (toOutcome_ne_resolved _ _)
    | (refine gpu_tie_break_cpt_bound ?_ ?_ h <;>
        first | exact hcpt | exact hmax)

lemma assign_checked_gpu_cpt_bound {cap : Capacity} {m C : Int}
    {t t' : TestState}
    (hcpt : truthy t.num_cpus_per_task = false)
    (hmax : t.max_avail_cpus_per_node = some C)
    (h : assign_checked cap .GPU m t = .resolved t') :
    ∃ a, t'.num_cpus_per_task =
        some (min a (Int.tdiv C cap.max_avail_gpus_per_node)) ∧
      ¬ cap.max_avail_gpus_per_node = 0 := by
  unfold assign_checked derive_default_cpus at h
  repeat' split at h
  all_goals first
    | exact absurd h (by simp)
    | exact absurd h (toOutcome_ne_resolved _ _)
    | (refine assign_one_task_per_gpu_cpt_bound ?_ ?_ h <;>
        first | exact hcpt | exact hmax)

/-- Claim C4: under the DEVICE policy, whenever `num_cpus_per_task` was not
user-set (so the engine derives it) and resolution completes on a
partition with a nonnegative core count and a nonnegative GPU count, the
derived `num_cpus_per_task` never exceeds
`⌊num_cores / max_avail_gpus_per_node⌋` — in particular also when
`default_num_cpus_per_node` was computed with a node-part divisor greater
than one, since the second operand of the `min` on lines 201-204 is the
undivided hardware ratio. -/
theorem c4_device_cpu_cap (cap : Capacity) (t0 t' : TestState) (C : Int)
    (hcpu : cap.num_cpus = some C) (hC : 0 ≤ C)
    (hG : 0 ≤ cap.max_avail_gpus_per_node)
    (hcpt : truthy t0.num_cpus_per_task = false)
    (h : assign_one_task_per_compute_unit cap .GPU t0 = .resolved t') :
    ∃ v, t'.num_cpus_per_task = some v ∧
      v ≤ Int.fdiv C cap.max_avail_gpus_per_node := by
  unfold assign_one_task_per_compute_unit at h
  rw [hcpu] at h
  have h2 : assign_checked cap .GPU C
      { t0 with max_avail_cpus_per_node := some C } = .resolved t' := h
  have hb : ∃ a, t'.num_cpus_per_task =
      some (min a (Int.tdiv C cap.max_avail_gpus_per_node)) ∧
      ¬ cap.max_avail_gpus_per_node = 0 := by
    refine assign_checked_gpu_cpt_bound ?_ ?_ h2
    · exact hcpt
    · rfl
  obtain ⟨a, ha, hG0⟩ := hb
  refine ⟨min a (Int.tdiv C cap.max_avail_gpus_per_node), ha, ?_⟩
  rw [Int.fdiv_eq_tdiv hC hG]
  exact min_le_right _ _

/-- Concrete instance of claim C4: 16 cores, 4 GPUs, divisor 2 (so
`default_num_cpus_per_node = 8`): the derived `num_cpus_per_task = 4`
satisfies `4 ≤ ⌊16 / 4⌋`. -/
theorem c4_witness :
    ∃ v, TestState.num_cpus_per_task
        { num_nodes := 1, num_tasks_per_node := some 2,
          num_cpus_per_task := some 4, num_gpus_per_node := some 2,
          num_tasks := some 2, default_num_cpus_per_node := some 8,
          default_num_gpus_per_node := some 2, node_part := some 2,
          max_avail_cpus_per_node := some 16 } = some v ∧
      v ≤ Int.fdiv 16 (Capacity.max_avail_gpus_per_node cap16g4) :=
  c4_device_cpu_cap cap16g4 { baseRequest with node_part := some 2 } _ 16
    (by decide) (by decide) (by decide) (by decide) (by decide)
/-- A character that `shlex` treats literally: not whitespace, not a quote,
not the escape character. -/
def isPlainChar (c : Char) : Bool :=
  !(isShlexWhitespace c) && c != sqChar && c != dqChar && c != bsChar

/-- A token that `shlex` re-reads as itself: nonempty and made of plain
characters only. -/
def plainToken (s : String) : Bool :=
  !(s.data.isEmpty) && s.data.all isPlainChar

lemma shlexRun_word_append (w : List Char)
    (hw : ∀ c ∈ w, isPlainChar c = true) :
    ∀ (cs cur : List Char) (q : Bool) (acc : List String),
    shlexRun (w ++ cs) .word cur q acc =
      shlexRun cs .word (cur ++ w) q acc := by
  induction w with
  | nil => intro cs cur q acc; simp
  | cons c w ih =>
    intro cs cur q acc
    have hc : isPlainChar c = true := hw c (by simp)
    simp only [isPlainChar, Bool.and_eq_true, Bool.not_eq_true',
      bne_iff_ne, ne_eq] at hc
    obtain ⟨⟨⟨hws, hsq⟩, hdq⟩, hbs⟩ := hc
    rw [List.cons_append, shlexRun]
    simp only [hws, hsq, hdq, hbs, Bool.false_eq_true, if_false]
    rw [ih (fun d hd => hw d (by simp [hd]))]
    rw [List.append_assoc]
    rfl
lemma shlexRun_join_plain :
    ∀ (xs : List String) (acc : List String),
    (∀ x ∈ xs, plainToken x = true) →
    shlexRun (pyJoin xs).data .blank [] false acc = some (acc ++ xs) := by
  intro xs
  induction xs with
  | nil => intro acc _; simp [pyJoin, shlexRun]
  | cons x xs ih =>
    intro acc hall
    have hx : plainToken x = true := hall x (by simp)
    simp only [plainToken, Bool.and_eq_true, List.all_eq_true] at hx
    obtain ⟨hne, hplain⟩ := hx
    obtain ⟨c, w, hcw⟩ : ∃ c w, x.data = c :: w := by
      cases hd : x.data with
      | nil => rw [hd] at hne; simp at hne
      | cons c w => exact ⟨c, w, rfl⟩
    have hc : isPlainChar c = true := hplain c (by rw [hcw]; simp)
    have hwplain : ∀ d ∈ w, isPlainChar d = true := by
      intro d hd
      exact hplain d (by rw [hcw]; simp [hd])
    simp only [isPlainChar, Bool.and_eq_true, Bool.not_eq_true',
      bne_iff_ne, ne_eq] at hc
    obtain ⟨⟨⟨hws, hsq⟩, hdq⟩, hbs⟩ := hc
    cases xs with
    | nil =>
      show shlexRun x.data .blank [] false acc = some (acc ++ [x])
      rw [hcw, shlexRun]
      simp only [hws, hsq, hdq, hbs, Bool.false_eq_true, if_false]
      rw [show w = w ++ [] from (List.append_nil w).symm,
        shlexRun_word_append w hwplain, shlexRun]
      rw [if_neg (by simp)]
      simp only [List.nil_append, List.singleton_append]
      have hmk : String.mk (c :: w) = x := by rw [← hcw]
      rw [hmk]
    | cons y ys =>
      have hj : pyJoin (x :: y :: ys) = x ++ " " ++ pyJoin (y :: ys) := rfl
      rw [hj]
      rw [String.data_append, String.data_append]
      have hsp : (" ").data = [' '] := rfl
      rw [hsp, hcw]
      simp only [List.cons_append]
      rw [shlexRun]
      simp only [hws, hsq, hdq, hbs, Bool.false_eq_true, if_false]
      rw [List.nil_append, List.append_assoc,
        shlexRun_word_append w hwplain]
      simp only [List.singleton_append]
      rw [shlexRun]
      rw [if_pos (by decide)]
      rw [if_neg (by simp)]
      have hmk : String.mk (c :: w) = x := by rw [← hcw]
      rw [hmk]
      rw [ih (acc ++ [x]) (fun z hz => hall z (by simp [hz]))]
      simp
lemma check_custom_executable_opts_plain (xs : List String) (n : Nat)
    (h : ∀ x ∈ xs, plainToken x = true) :
    check_custom_executable_opts xs n =
      some (xs, decide (xs.length > n)) := by
  unfold check_custom_executable_opts shlexSplit
  rw [shlexRun_join_plain xs [] h]
  rfl

/-- The claim C9 counterexample input: one user token holding a
single-quoted, space-separated pair. -/
def quotedPairToken : String := String.mk [sqChar, 'a', ' ', 'b', sqChar]

/-- Counterexample to claim C9 as stated: with baseline count 1, the first
normalization of the single token `'a b'` un-quotes it to the one token
`a b` (flag `false`), but re-normalizing that output splits it at the now
unprotected space into the two tokens `a`, `b` (flag `true`): neither the
token sequence nor the boolean is stable. -/
theorem c9_counterexample :
    check_custom_executable_opts [quotedPairToken] 1 =
      some ([String.mk ['a', ' ', 'b']], false) ∧
    check_custom_executable_opts [String.mk ['a', ' ', 'b']] 1 =
      some (["a", "b"], true) ∧
    ¬ (([String.mk ['a', ' ', 'b']], false) =
        ((["a", "b"] : List String), true)) := by
  refine ⟨by decide, by decide, by decide⟩

/-- Claim C9 as amended: the override normalizer is idempotent on every
token sequence whose tokens are nonempty and contain no whitespace, quote
or escape character (the counterexample shows a quoted token with an inner
space breaks idempotence): for such sequences the normalized output and the
`was_customized` boolean of a second application equal those of the
first. -/
theorem c9_idempotent_plain (xs : List String) (n : Nat)
    (h : ∀ x ∈ xs, plainToken x = true) :
    ∃ ys b, check_custom_executable_opts xs n = some (ys, b) ∧
      check_custom_executable_opts ys n = some (ys, b) :=
  ⟨xs, decide (xs.length > n),
    check_custom_executable_opts_plain xs n h,
    check_custom_executable_opts_plain xs n h⟩

/-- Concrete instance of claim C9 as amended: two plain tokens, baseline
count 1. -/
theorem c9_witness :
    ∃ ys b, check_custom_executable_opts ["a", "bc"] 1 = some (ys, b) ∧
      check_custom_executable_opts ys 1 = some (ys, b) :=
  c9_idempotent_plain ["a", "bc"] 1 (by decide)
